import Mathlib

/-!
Verification of the TrueLayer MCP server core (src/truelayer.ts, src/index.ts):
a shallow embedding of the token cache, the token exchange, the request-signing
pipeline and the six API operations, together with theorems settling the
specification's claims about them.

Modelling conventions:
* JavaScript `Date.now()` timestamps are natural numbers (epoch milliseconds).
* Network effects (fetch) are modelled by an explicit outcome parameter: the
  environment's response to the one fetch a function performs.
* A rejected promise (thrown error) is an `Except.error`.
* The JavaScript distinction between `null` and `undefined` is kept, because
  `tokenCache.token !== null` treats them differently.
-/

namespace TruelayerMcp

/-- Embeds the `config` object of truelayer.ts (lines 6-13). -/
structure Config where
  userAgent : String
  tokenScope : String
  tokenGrantType : String
  tokenExpiryFallbackSeconds : Nat
  tokenExpiryBufferMs : Nat
  paymentLinkExpiryHours : Nat
deriving DecidableEq

def config : Config :=
  { userAgent := "truelayer-mcp/1.0.0"
    tokenScope := "paydirect payments"
    tokenGrantType := "client_credentials"
    tokenExpiryFallbackSeconds := 1800
    tokenExpiryBufferMs := 60000
    paymentLinkExpiryHours := 24 }

/-- A JavaScript value that is either `null`, `undefined`, or a string.
The token cache cell has this type at runtime: it starts as `null` and is
overwritten with `tokenResponse.access_token`, which is `undefined` when the
parsed JSON body lacks that field. -/
inductive JsNullable where
  | null
  | undefined
  | str (s : String)
deriving DecidableEq

/-- How a `JsNullable` renders inside a JavaScript template literal
(`Bearer ${access_token}`). -/
def JsNullable.render : JsNullable → String
  | .null => "null"
  | .undefined => "undefined"
  | .str s => s

/-- Embeds the `tokenCache` object (truelayer.ts lines 22-25): the token cell
and the `expiresAt` timestamp in epoch milliseconds. -/
structure TokenCache where
  token : JsNullable
  expiresAt : Nat
deriving DecidableEq

/-- The cache at process start: `{ token: null, expiresAt: 0 }`. -/
def initialTokenCache : TokenCache := { token := .null, expiresAt := 0 }

/-- Embeds `isTokenValid` (truelayer.ts lines 28-33):
`tokenCache.token !== null && tokenCache.expiresAt > Date.now() + config.tokenExpiryBufferMs`. -/
def isTokenValid (cache : TokenCache) (now : Nat) : Bool :=
  decide (cache.token ≠ .null) &&
    decide (cache.expiresAt > now + config.tokenExpiryBufferMs)

/-- The runtime shape of the token endpoint's parsed JSON body.  The source
annotates it as `AccessResponse` but performs no runtime validation, so every
field may be absent (`none` models a missing field / `undefined`). -/
structure TokenBody where
  access_token : Option String
  expires_in : Option Nat
  token_type : Option String
deriving DecidableEq

/-- Result of `await response.json()`: either the promise rejects (body not
parseable as JSON) or it yields parsed data. -/
inductive BodyParse (α : Type) where
  | malformed
  | parsed (data : α)
deriving DecidableEq

/-- The environment's answer to one `fetch` call: the promise rejects (network
failure) or resolves to a response with a status code and a body whose JSON
parse either fails or yields data. -/
inductive FetchOutcome (α : Type) where
  | transportError (msg : String)
  | httpResponse (status : Nat) (body : BodyParse α)
deriving DecidableEq

/-- The errors the embedded functions throw: a rejected `fetch` (network
failure), a rejected `response.json()` (body not JSON), and the
`new Error(` followed by `HTTP error! Status: <status>)` thrown by
`generateAccessToken` on a non-2xx token-endpoint response (the status code is
what the message carries). -/
inductive JsError where
  | transport (msg : String)
  | jsonParse
  | httpStatus (status : Nat)
deriving DecidableEq

/-- `response.ok` per the fetch specification: status in the range 200-299. -/
def responseOk (status : Nat) : Bool := 200 ≤ status && status ≤ 299

/-- Embeds the response handling of `generateAccessToken` (truelayer.ts lines
89-102): on `!response.ok` throw an error carrying the status; otherwise
`await response.json()` and return the parsed data unvalidated.  The
`catch` clause only logs and rethrows, so it does not change the result. -/
def generateAccessToken (net : FetchOutcome TokenBody) : Except JsError TokenBody :=
  match net with
  | .transportError m => .error (.transport m)
  | .httpResponse status body =>
    if responseOk status then
      match body with
      | .malformed => .error .jsonParse
      | .parsed data => .ok data
    else .error (.httpStatus status)

/-- Assignment `tokenCache.token = tokenResponse.access_token`: a present
string field stores the string, a missing field stores `undefined`. -/
def jsOfAccessToken : Option String → JsNullable
  | some s => .str s
  | none => .undefined

/-- Embeds `getAccessToken` (truelayer.ts lines 36-50) as a state transition:
given the current cache, the current time, and the environment's answer to the
token-exchange fetch (consulted only on a cache miss), it returns the result
(the token returned to the caller, or the propagated error) together with the
cache afterwards.  On a cache miss it stores the new token and
`expiresAt = now + (tokenResponse.expires_in || config.tokenExpiryFallbackSeconds) * 1000`. -/
def getAccessToken (cache : TokenCache) (now : Nat) (net : FetchOutcome TokenBody) :
    Except JsError JsNullable × TokenCache :=
  if isTokenValid cache now then
    (.ok cache.token, cache)
  else
    match generateAccessToken net with
    | .error e => (.error e, cache)
    | .ok tokenResponse =>
      let token := jsOfAccessToken tokenResponse.access_token
      let expiresIn :=
        match tokenResponse.expires_in with
        | some n => if n = 0 then config.tokenExpiryFallbackSeconds else n
        | none => config.tokenExpiryFallbackSeconds
      (.ok token, { token := token, expiresAt := now + expiresIn * 1000 })

/-- A sequence of `getAccessToken()` calls from process start: each element is
the call's `Date.now()` reading and the environment's answer to the exchange
fetch, and the fold threads the cache. -/
def runGetAccessToken (calls : List (Nat × FetchOutcome TokenBody)) : TokenCache :=
  calls.foldl (fun c p => (getAccessToken c p.1 p.2).2) initialTokenCache

/-- Modelled from the spec: the repository's `auth.ts` module is not in the
sources (only `auth.example.ts` is distributed); per the spec it supplies the
key identifier, private signing key material, client identifier and secret,
authorization endpoint, API base endpoint and merchant account identifier as
immutable configuration loaded at process start. -/
structure AuthConfig where
  KID : String
  PRIVATE_KEY_PEM : String
  CLIENT_ID : String
  CLIENT_SECRET : String
  AUTH_URI : String
  BASE_URI : String
  MERCHANT_ACCOUNT_ID : String
deriving DecidableEq

/-- The argument object of `tlSigning.sign` as the source builds it:
key id, private key, HTTP method, URL path, the header map, and the body. -/
structure SignArgs where
  kid : String
  privateKeyPem : String
  method : String
  path : String
  headers : List (String × String)
  body : String
deriving DecidableEq

/-- Length-of-payload in unary, a colon, then the payload: a self-delimiting
chunk used to build an injective serialization. -/
def encChunk (s : List Char) : List Char :=
  List.replicate s.length '1' ++ ':' :: s

/-- Each header pair as two chunks, in order. -/
def encPairs : List (String × String) → List Char
  | [] => []
  | (k, v) :: rest => encChunk k.data ++ (encChunk v.data ++ encPairs rest)

/-- The header list with its length encoded first, so that the pair encoding
is self-delimiting inside a longer message. -/
def encHeaders (hs : List (String × String)) : List Char :=
  encChunk (List.replicate hs.length 'h') ++ encPairs hs

/-- Modelled from the spec: the `truelayer-signing` library's `sign` operation
is an external dependency whose implementation is not among the sources.  Per
the spec it is a deterministic pure function of the key identifier, the
private key material, the HTTP method, the URL path, the header set and the
exact body bytes, producing an opaque signature string that binds all of
them.  It is modelled as an injective serialization of those inputs. -/
def tlSign (a : SignArgs) : String :=
  String.mk (encChunk a.kid.data ++ (encChunk a.privateKeyPem.data ++
    (encChunk a.method.data ++ (encChunk a.path.data ++
      (encHeaders a.headers ++ encChunk a.body.data)))))

/-- An outbound HTTP request as handed to `fetch`: method, full URL, header
list (in construction order), and optional body string. -/
structure Request where
  method : String
  url : String
  headers : List (String × String)
  body : Option String
deriving DecidableEq

/-- One hexadecimal digit, uppercase, as used by `URLSearchParams`
percent-encoding. -/
def hexDigitChar (n : Nat) : Char :=
  if n < 10 then Char.ofNat (48 + n) else Char.ofNat (55 + n)

/-- UTF-8 bytes of a Unicode scalar value. -/
def utf8Bytes (n : Nat) : List Nat :=
  if n < 128 then [n]
  else if n < 2048 then [192 + n / 64, 128 + n % 64]
  else if n < 65536 then [224 + n / 4096, 128 + (n / 64) % 64, 128 + n % 64]
  else [240 + n / 262144, 128 + (n / 4096) % 64, 128 + (n / 64) % 64, 128 + n % 64]

/-- One character under the `application/x-www-form-urlencoded` serializer
used by `URLSearchParams.toString()`: ASCII alphanumerics and `*-._` kept,
space becomes `+`, everything else percent-encoded over its UTF-8 bytes. -/
def formEncodeChar (c : Char) : List Char :=
  if ('0' ≤ c ∧ c ≤ '9') ∨ ('A' ≤ c ∧ c ≤ 'Z') ∨ ('a' ≤ c ∧ c ≤ 'z') ∨
      c = '*' ∨ c = '-' ∨ c = '.' ∨ c = '_' then [c]
  else if c = ' ' then ['+']
  else (utf8Bytes c.toNat).map (fun b => ['%', hexDigitChar (b / 16), hexDigitChar (b % 16)]) |>.flatten

/-- A string under the `URLSearchParams` serializer. -/
def formEncode (s : String) : String :=
  String.mk ((s.data.map formEncodeChar).flatten)

/-- `URLSearchParams.toString()`: the pairs in insertion order, each serialized
as `name=value`, joined with ampersands. -/
def urlEncodeParams (ps : List (String × String)) : String :=
  String.intercalate "&" (ps.map (fun p => formEncode p.1 ++ "=" ++ formEncode p.2))

/-- The `requestData` object of `generateAccessToken` (truelayer.ts lines
54-59), in property-insertion order. -/
def tokenRequestData (ac : AuthConfig) : List (String × String) :=
  [("client_id", ac.CLIENT_ID), ("client_secret", ac.CLIENT_SECRET),
   ("scope", config.tokenScope), ("grant_type", config.tokenGrantType)]

/-- `formData = new URLSearchParams(requestData).toString()` (line 62). -/
def tokenFormData (ac : AuthConfig) : String :=
  urlEncodeParams (tokenRequestData ac)

/-- The headers included in the token-exchange signature (lines 65-68). -/
def tokenExchangeHeaders : List (String × String) :=
  [("Content-Type", "application/x-www-form-urlencoded"),
   ("User-Agent", config.userAgent)]

/-- The argument object of the `tlSigning.sign` call in `generateAccessToken`
(lines 71-78). -/
def tokenExchangeSignArgs (ac : AuthConfig) : SignArgs :=
  { kid := ac.KID, privateKeyPem := ac.PRIVATE_KEY_PEM, method := "POST",
    path := "/connect/token", headers := tokenExchangeHeaders,
    body := tokenFormData ac }

/-- The request `generateAccessToken` hands to `fetch` (lines 81-90): the
signed headers spread first, then the `Tl-Signature` header, with the same
form body. -/
def tokenExchangeRequest (ac : AuthConfig) : Request :=
  { method := "POST", url := ac.AUTH_URI,
    headers := tokenExchangeHeaders ++
      [("Tl-Signature", tlSign (tokenExchangeSignArgs ac))],
    body := some (tokenFormData ac) }

/-- The request `getPayout` hands to `fetch` (truelayer.ts lines 109-116). -/
def getPayoutRequest (ac : AuthConfig) (accessToken paymentId : String) : Request :=
  { method := "GET", url := ac.BASE_URI ++ "/v3/payouts/" ++ paymentId,
    headers := [("Authorization", "Bearer " ++ accessToken),
                ("Accept", "application/json; charset=UTF-8"),
                ("User-Agent", config.userAgent)],
    body := none }

/-- The request `getPayment` hands to `fetch` (truelayer.ts lines 128-135). -/
def getPaymentRequest (ac : AuthConfig) (accessToken paymentId : String) : Request :=
  { method := "GET", url := ac.BASE_URI ++ "/v3/payments/" ++ paymentId,
    headers := [("Authorization", "Bearer " ++ accessToken),
                ("Accept", "application/json; charset=UTF-8"),
                ("User-Agent", config.userAgent)],
    body := none }

/-- The request `getPaymentLink` hands to `fetch` (truelayer.ts lines 279-286). -/
def getPaymentLinkRequest (ac : AuthConfig) (accessToken paymentLinkId : String) : Request :=
  { method := "GET", url := ac.BASE_URI ++ "/v3/payment-links/" ++ paymentLinkId,
    headers := [("Authorization", "Bearer " ++ accessToken),
                ("Accept", "application/json; charset=UTF-8"),
                ("User-Agent", config.userAgent)],
    body := none }

/-- The header object of `createPayout` (truelayer.ts lines 169-175), built
from the bearer token and the freshly generated idempotency key. -/
def createPayoutHeaders (accessToken idempotencyKey : String) : List (String × String) :=
  [("Authorization", "Bearer " ++ accessToken),
   ("Content-Type", "application/json; charset=UTF-8"),
   ("Accept", "application/json; charset=UTF-8"),
   ("Idempotency-Key", idempotencyKey),
   ("User-Agent", config.userAgent)]

/-- The argument object of the `tlSigning.sign` call in `createPayout` (lines
178-185); `bodyStr` stands for `JSON.stringify(payoutRequest)`. -/
def createPayoutSignArgs (ac : AuthConfig) (accessToken idempotencyKey bodyStr : String) :
    SignArgs :=
  { kid := ac.KID, privateKeyPem := ac.PRIVATE_KEY_PEM, method := "POST",
    path := "/v3/payouts",
    headers := createPayoutHeaders accessToken idempotencyKey, body := bodyStr }

/-- The request `createPayout` hands to `fetch` (lines 187-194). -/
def createPayoutRequest (ac : AuthConfig) (accessToken idempotencyKey bodyStr : String) :
    Request :=
  { method := "POST", url := ac.BASE_URI ++ "/v3/payouts",
    headers := createPayoutHeaders accessToken idempotencyKey ++
      [("Tl-Signature", tlSign (createPayoutSignArgs ac accessToken idempotencyKey bodyStr))],
    body := some bodyStr }

/-- The header object of `createPaymentLink` (truelayer.ts lines 241-247). -/
def createPaymentLinkHeaders (accessToken idempotencyKey : String) : List (String × String) :=
  [("Authorization", "Bearer " ++ accessToken),
   ("Content-Type", "application/json; charset=UTF-8"),
   ("Accept", "application/json; charset=UTF-8"),
   ("Idempotency-Key", idempotencyKey),
   ("User-Agent", config.userAgent)]

/-- The argument object of the `tlSigning.sign` call in `createPaymentLink`
(lines 251-258); `bodyStr` stands for `JSON.stringify(paymentLinkRequest)`. -/
def createPaymentLinkSignArgs (ac : AuthConfig) (accessToken idempotencyKey bodyStr : String) :
    SignArgs :=
  { kid := ac.KID, privateKeyPem := ac.PRIVATE_KEY_PEM, method := "POST",
    path := "/v3/payment-links",
    headers := createPaymentLinkHeaders accessToken idempotencyKey, body := bodyStr }

/-- The request `createPaymentLink` hands to `fetch` (lines 260-267). -/
def createPaymentLinkRequest (ac : AuthConfig) (accessToken idempotencyKey bodyStr : String) :
    Request :=
  { method := "POST", url := ac.BASE_URI ++ "/v3/payment-links",
    headers := createPaymentLinkHeaders accessToken idempotencyKey ++
      [("Tl-Signature", tlSign (createPaymentLinkSignArgs ac accessToken idempotencyKey bodyStr))],
    body := some bodyStr }

/-- The query parameter list `listTransactions` builds (truelayer.ts lines
300-305): `from` and `to` appended unconditionally, `cursor` appended only
when it is truthy (present and non-empty). -/
def listTransactionsParams (fromDate toDate : String) (cursor : Option String) :
    List (String × String) :=
  let params := [("from", fromDate), ("to", toDate)]
  match cursor with
  | some c => if c = "" then params else params ++ [("cursor", c)]
  | none => params

/-- The request `listTransactions` hands to `fetch` (lines 307-317). -/
def listTransactionsRequest (ac : AuthConfig)
    (accessToken fromDate toDate merchantAccountId : String) (cursor : Option String) :
    Request :=
  { method := "GET",
    url := ac.BASE_URI ++ "/v3/merchant-accounts/" ++ merchantAccountId ++
      "/transactions?" ++ urlEncodeParams (listTransactionsParams fromDate toDate cursor),
    headers := [("Authorization", "Bearer " ++ accessToken),
                ("Accept", "application/json; charset=UTF-8"),
                ("User-Agent", config.userAgent)],
    body := none }

/-- What each API operation does with its fetch: `const data = await
response.json(); return data;` — the parsed body is returned whatever the
status code is, since none of the six operations inspects `response.ok`;
only a rejected fetch or a rejected `response.json()` makes the operation
fail.  The parsed JSON value is kept opaque (a `String` rendering). -/
def awaitJson (net : FetchOutcome String) : Except JsError String :=
  match net with
  | .transportError m => .error (.transport m)
  | .httpResponse _status body =>
    match body with
    | .malformed => .error .jsonParse
    | .parsed data => .ok data

/-- What an API operation's call yields: the value returned to the caller (or
the propagated error), the request it handed to `fetch` if it got that far,
and the token cache afterwards. -/
structure OpOutcome where
  result : Except JsError String
  request : Option Request
  cache : TokenCache

/-- Embeds `getPayout` (truelayer.ts lines 104-120): acquire a token, perform
the GET, return the parsed body unconditionally. -/
def getPayout (ac : AuthConfig) (cache : TokenCache) (now : Nat)
    (tokenNet : FetchOutcome TokenBody) (net : FetchOutcome String)
    (paymentId : String) : OpOutcome :=
  match getAccessToken cache now tokenNet with
  | (.error e, cache') => { result := .error e, request := none, cache := cache' }
  | (.ok accessToken, cache') =>
    { result := awaitJson net,
      request := some (getPayoutRequest ac accessToken.render paymentId),
      cache := cache' }

/-- Embeds `getPayment` (truelayer.ts lines 122-139). -/
def getPayment (ac : AuthConfig) (cache : TokenCache) (now : Nat)
    (tokenNet : FetchOutcome TokenBody) (net : FetchOutcome String)
    (paymentId : String) : OpOutcome :=
  match getAccessToken cache now tokenNet with
  | (.error e, cache') => { result := .error e, request := none, cache := cache' }
  | (.ok accessToken, cache') =>
    { result := awaitJson net,
      request := some (getPaymentRequest ac accessToken.render paymentId),
      cache := cache' }

/-- Embeds `getPaymentLink` (truelayer.ts lines 273-290). -/
def getPaymentLink (ac : AuthConfig) (cache : TokenCache) (now : Nat)
    (tokenNet : FetchOutcome TokenBody) (net : FetchOutcome String)
    (paymentLinkId : String) : OpOutcome :=
  match getAccessToken cache now tokenNet with
  | (.error e, cache') => { result := .error e, request := none, cache := cache' }
  | (.ok accessToken, cache') =>
    { result := awaitJson net,
      request := some (getPaymentLinkRequest ac accessToken.render paymentLinkId),
      cache := cache' }

/-- Embeds `createPayout` (truelayer.ts lines 158-197); `idempotencyKey` is
the `uuidv4()` value the environment supplies and `bodyStr` stands for
`JSON.stringify(payoutRequest)`. -/
def createPayout (ac : AuthConfig) (cache : TokenCache) (now : Nat)
    (tokenNet : FetchOutcome TokenBody) (net : FetchOutcome String)
    (idempotencyKey bodyStr : String) : OpOutcome :=
  match getAccessToken cache now tokenNet with
  | (.error e, cache') => { result := .error e, request := none, cache := cache' }
  | (.ok accessToken, cache') =>
    { result := awaitJson net,
      request := some (createPayoutRequest ac accessToken.render idempotencyKey bodyStr),
      cache := cache' }

/-- Embeds `createPaymentLink` (truelayer.ts lines 232-271); `idempotencyKey`
is the `uuidv4()` value and `bodyStr` stands for
`JSON.stringify(paymentLinkRequest)`. -/
def createPaymentLink (ac : AuthConfig) (cache : TokenCache) (now : Nat)
    (tokenNet : FetchOutcome TokenBody) (net : FetchOutcome String)
    (idempotencyKey bodyStr : String) : OpOutcome :=
  match getAccessToken cache now tokenNet with
  | (.error e, cache') => { result := .error e, request := none, cache := cache' }
  | (.ok accessToken, cache') =>
    { result := awaitJson net,
      request := some (createPaymentLinkRequest ac accessToken.render idempotencyKey bodyStr),
      cache := cache' }

/-- Embeds `listTransactions` (truelayer.ts lines 292-321); the trailing
`console.error(data)` only logs. -/
def listTransactions (ac : AuthConfig) (cache : TokenCache) (now : Nat)
    (tokenNet : FetchOutcome TokenBody) (net : FetchOutcome String)
    (fromDate toDate merchantAccountId : String) (cursor : Option String) : OpOutcome :=
  match getAccessToken cache now tokenNet with
  | (.error e, cache') => { result := .error e, request := none, cache := cache' }
  | (.ok accessToken, cache') =>
    { result := awaitJson net,
      request := some (listTransactionsRequest ac accessToken.render
        fromDate toDate merchantAccountId cursor),
      cache := cache' }

/-- A natural number zero-padded on the left to the given width, as in the
fixed-width fields of `Date.toISOString()`. -/
def padNum (width n : Nat) : String :=
  String.mk (List.replicate (width - (toString n).length) '0') ++ toString n

/-- Proleptic-Gregorian civil date from a count of days since 1970-01-01
(Howard Hinnant's `civil_from_days`, restricted to non-negative days):
year, month, day. -/
def civilFromDays (days : Nat) : Nat × Nat × Nat :=
  let z := days + 719468
  let era := z / 146097
  let doe := z % 146097
  let yoe := (doe - doe / 1460 + doe / 36524 - doe / 146096) / 365
  let y := yoe + era * 400
  let doy := doe - (365 * yoe + yoe / 4 - yoe / 100)
  let mp := (5 * doy + 2) / 153
  let d := doy - (153 * mp + 2) / 5 + 1
  let m := if mp < 10 then mp + 3 else mp - 9
  (if m ≤ 2 then y + 1 else y, m, d)

/-- `Date.prototype.toISOString` on an epoch-millisecond timestamp:
`YYYY-MM-DDTHH:mm:ss.sssZ` in UTC. -/
def jsToISOString (ms : Nat) : String :=
  let msOfDay := ms % 86400000
  let ymd := civilFromDays (ms / 86400000)
  padNum 4 ymd.1 ++ "-" ++ padNum 2 ymd.2.1 ++ "-" ++ padNum 2 ymd.2.2 ++ "T" ++
    padNum 2 (msOfDay / 3600000) ++ ":" ++ padNum 2 (msOfDay % 3600000 / 60000) ++ ":" ++
    padNum 2 (msOfDay % 60000 / 1000) ++ "." ++ padNum 3 (msOfDay % 1000) ++ "Z"

/-- Embeds the date defaulting of the `truelayer-list-transactions` tool
handler (index.ts lines 277-284) for the case where both `from` and `to` are
unspecified: `toDate = new Date().toISOString()` and `fromDate` is obtained
from a fresh `Date` shifted back 30 days with `setDate(getDate() - 30)`.
Both `new Date()` constructions are modelled as the same instant `now` (epoch
milliseconds), and the calendar is modelled in UTC, where shifting the
day-of-month by 30 moves the timestamp by exactly 30 · 86 400 000 ms. -/
def listTransactionsToolDefaults (now : Nat) : String × String :=
  let toDate := jsToISOString now
  let fromDate := jsToISOString (now - 30 * 86400000)
  (fromDate, toDate)

/-- Classifies the exchange outcomes that respect the token endpoint's
documented contract: any successful (2xx, JSON-parseable) response carries a
present, non-empty `access_token` string. -/
def wellFormedExchange (o : FetchOutcome TokenBody) : Bool :=
  match o with
  | .httpResponse status (.parsed d) =>
    if responseOk status then
      match d.access_token with
      | some s => s ≠ ""
      | none => false
    else true
  | _ => true

/-- The token-cell invariant the spec asserts: `null` or a non-empty string. -/
def cacheTokenWF (c : TokenCache) : Prop :=
  c.token = .null ∨ ∃ s, c.token = .str s ∧ s ≠ ""

/-- A concrete credential configuration used to instantiate theorems with
hypotheses at explicit inputs. -/
def sampleAuthConfig : AuthConfig :=
  { KID := "kid-1", PRIVATE_KEY_PEM := "pem-1", CLIENT_ID := "client-1",
    CLIENT_SECRET := "secret-1", AUTH_URI := "https://auth.truelayer-sandbox.com/connect/token",
    BASE_URI := "https://api.truelayer-sandbox.com", MERCHANT_ACCOUNT_ID := "merchant-1" }

/-- A concrete cache state holding a still-valid token. -/
def sampleValidCache : TokenCache := { token := .str "tok", expiresAt := 1000000000 }

theorem string_data_inj {s t : String} (h : s.data = t.data) : s = t := by
  cases s; cases t; exact congrArg String.mk h

theorem replicate_colon_inj {n m : Nat} {u v : List Char}
    (h : List.replicate n '1' ++ ':' :: u = List.replicate m '1' ++ ':' :: v) :
    n = m ∧ u = v := by
  induction n generalizing m with
  | zero =>
    cases m with
    | zero => simpa using h
    | succ k => simp [List.replicate_succ] at h
  | succ k ih =>
    cases m with
    | zero => simp [List.replicate_succ] at h
    | succ j =>
      simp only [List.replicate_succ, List.cons_append, List.cons.injEq] at h
      have := ih h.2
      exact ⟨by omega, this.2⟩

theorem encChunk_cancel {s t a b : List Char}
    (h : encChunk s ++ a = encChunk t ++ b) : s = t ∧ a = b := by
  have h' : List.replicate s.length '1' ++ ':' :: (s ++ a) =
      List.replicate t.length '1' ++ ':' :: (t ++ b) := by
    simpa [encChunk, List.append_assoc] using h
  obtain ⟨hlen, happ⟩ := replicate_colon_inj h'
  exact List.append_inj happ hlen

theorem encPairs_cancel {hs ks : List (String × String)} {a b : List Char}
    (hlen : hs.length = ks.length) (h : encPairs hs ++ a = encPairs ks ++ b) :
    hs = ks ∧ a = b := by
  induction hs generalizing ks a b with
  | nil =>
    cases ks with
    | nil => simpa [encPairs] using h
    | cons k2 r2 => simp at hlen
  | cons p r ih =>
    cases ks with
    | nil => simp at hlen
    | cons q r2 =>
      obtain ⟨k1, v1⟩ := p
      obtain ⟨k2, v2⟩ := q
      simp only [encPairs, List.append_assoc] at h
      obtain ⟨hk, h1⟩ := encChunk_cancel h
      obtain ⟨hv, h2⟩ := encChunk_cancel h1
      simp only [List.length_cons, Nat.succ.injEq] at hlen
      obtain ⟨hr, hab⟩ := ih hlen h2
      exact ⟨by rw [string_data_inj hk, string_data_inj hv, hr], hab⟩

theorem encHeaders_cancel {hs ks : List (String × String)} {a b : List Char}
    (h : encHeaders hs ++ a = encHeaders ks ++ b) : hs = ks ∧ a = b := by
  simp only [encHeaders, List.append_assoc] at h
  obtain ⟨hcount, h1⟩ := encChunk_cancel h
  have hlen : hs.length = ks.length := by
    have := congrArg List.length hcount
    simpa using this
  exact encPairs_cancel hlen h1

theorem tlSign_injective : Function.Injective tlSign := by
  intro x y h
  have h' : encChunk x.kid.data ++ (encChunk x.privateKeyPem.data ++
      (encChunk x.method.data ++ (encChunk x.path.data ++
        (encHeaders x.headers ++ encChunk x.body.data)))) =
      encChunk y.kid.data ++ (encChunk y.privateKeyPem.data ++
      (encChunk y.method.data ++ (encChunk y.path.data ++
        (encHeaders y.headers ++ encChunk y.body.data)))) :=
    congrArg String.data h
  obtain ⟨hkid, h1⟩ := encChunk_cancel h'
  obtain ⟨hpem, h2⟩ := encChunk_cancel h1
  obtain ⟨hmethod, h3⟩ := encChunk_cancel h2
  obtain ⟨hpath, h4⟩ := encChunk_cancel h3
  obtain ⟨hheaders, h5⟩ := encHeaders_cancel h4
  have hbody : x.body.data = y.body.data := by
    have h6 : encChunk x.body.data ++ ([] : List Char) =
        encChunk y.body.data ++ ([] : List Char) := by simpa using h5
    exact (encChunk_cancel h6).1
  obtain ⟨xk, xp, xm, xpa, xh, xb⟩ := x
  obtain ⟨yk, yp, ym, ypa, yh, yb⟩ := y
  simp only at hkid hpem hmethod hpath hheaders hbody
  simp only [SignArgs.mk.injEq]
  exact ⟨string_data_inj hkid, string_data_inj hpem, string_data_inj hmethod,
    string_data_inj hpath, hheaders, string_data_inj hbody⟩

/-- Preservation step for the token-cell invariant: one `getAccessToken` call
with a well-formed exchange outcome keeps the cache token `null` or a
non-empty string. -/
theorem step_preserves_cacheTokenWF (c : TokenCache) (now : Nat)
    (o : FetchOutcome TokenBody) (hwf : cacheTokenWF c)
    (ho : wellFormedExchange o = true) :
    cacheTokenWF (getAccessToken c now o).2 := by
  unfold getAccessToken
  by_cases hv : isTokenValid c now
  · simpa [hv] using hwf
  · simp only [hv, if_false, Bool.false_eq_true]
    cases o with
    | transportError m => simpa [generateAccessToken] using hwf
    | httpResponse status bp =>
      unfold generateAccessToken
      by_cases hok : responseOk status
      · cases bp with
        | malformed => simpa [hok] using hwf
        | parsed d =>
          simp only [hok, if_true]
          cases hda : d.access_token with
          | none =>
            exfalso
            simp [wellFormedExchange, hok, hda] at ho
          | some s =>
            have hs : s ≠ "" := by
              simpa [wellFormedExchange, hok, hda] using ho
            exact Or.inr ⟨s, by simp [jsOfAccessToken, hda], hs⟩
      · simpa [hok] using hwf

theorem foldl_preserves_cacheTokenWF (calls : List (Nat × FetchOutcome TokenBody))
    (c : TokenCache) (hwf : cacheTokenWF c)
    (h : ∀ p ∈ calls, wellFormedExchange p.2 = true) :
    cacheTokenWF (calls.foldl (fun c p => (getAccessToken c p.1 p.2).2) c) := by
  induction calls generalizing c with
  | nil => exact hwf
  | cons hd tl ih =>
    exact ih _ (step_preserves_cacheTokenWF c hd.1 hd.2 hwf (h hd (by simp)))
      (fun p hp => h p (by simp [hp]))

/-- C1 (counterexample): the claim says every API operation surfaces a
failure on any non-2xx upstream status.  It is false: `getPayout` performs no
`response.ok` check, so a 401 response whose body parses as JSON is returned
as a success result carrying the parsed body. -/
theorem c1_counterexample :
    responseOk 401 = false ∧
      (getPayout sampleAuthConfig sampleValidCache 0 (.transportError "unused")
        (.httpResponse 401 (.parsed "upstream error body")) "payout-1").result =
        Except.ok "upstream error body" :=
  ⟨rfl, rfl⟩

/-- C1 (amended): for each of the six API operations, once a token is
available, a transport failure or a non-JSON-parseable body is surfaced as a
failure, but the HTTP status is never checked: any response whose body parses
as JSON — 2xx or not — is returned as a success result carrying the parsed
body.  (Only the token exchange checks its status.) -/
theorem c1_operations_no_status_check (ac : AuthConfig) (cache cache' : TokenCache)
    (now : Nat) (tokenNet : FetchOutcome TokenBody) (tok : JsNullable)
    (h : getAccessToken cache now tokenNet = (.ok tok, cache'))
    (m : String) (status : Nat) (d : String)
    (pid lid fromD toD mid idk bodyStr : String) (cursor : Option String) :
    ((getPayout ac cache now tokenNet (.transportError m) pid).result =
        .error (.transport m) ∧
      (getPayout ac cache now tokenNet (.httpResponse status .malformed) pid).result =
        .error .jsonParse ∧
      (getPayout ac cache now tokenNet (.httpResponse status (.parsed d)) pid).result =
        .ok d) ∧
    ((getPayment ac cache now tokenNet (.transportError m) pid).result =
        .error (.transport m) ∧
      (getPayment ac cache now tokenNet (.httpResponse status .malformed) pid).result =
        .error .jsonParse ∧
      (getPayment ac cache now tokenNet (.httpResponse status (.parsed d)) pid).result =
        .ok d) ∧
    ((getPaymentLink ac cache now tokenNet (.transportError m) lid).result =
        .error (.transport m) ∧
      (getPaymentLink ac cache now tokenNet (.httpResponse status .malformed) lid).result =
        .error .jsonParse ∧
      (getPaymentLink ac cache now tokenNet (.httpResponse status (.parsed d)) lid).result =
        .ok d) ∧
    ((createPayout ac cache now tokenNet (.transportError m) idk bodyStr).result =
        .error (.transport m) ∧
      (createPayout ac cache now tokenNet (.httpResponse status .malformed) idk bodyStr).result =
        .error .jsonParse ∧
      (createPayout ac cache now tokenNet (.httpResponse status (.parsed d)) idk bodyStr).result =
        .ok d) ∧
    ((createPaymentLink ac cache now tokenNet (.transportError m) idk bodyStr).result =
        .error (.transport m) ∧
      (createPaymentLink ac cache now tokenNet
          (.httpResponse status .malformed) idk bodyStr).result = .error .jsonParse ∧
      (createPaymentLink ac cache now tokenNet
          (.httpResponse status (.parsed d)) idk bodyStr).result = .ok d) ∧
    ((listTransactions ac cache now tokenNet (.transportError m)
          fromD toD mid cursor).result = .error (.transport m) ∧
      (listTransactions ac cache now tokenNet (.httpResponse status .malformed)
          fromD toD mid cursor).result = .error .jsonParse ∧
      (listTransactions ac cache now tokenNet (.httpResponse status (.parsed d))
          fromD toD mid cursor).result = .ok d) := by
  simp [getPayout, getPayment, getPaymentLink, createPayout, createPaymentLink,
    listTransactions, h, awaitJson]

/-- Witness for the amended C1 theorem at concrete inputs. -/
theorem c1_operations_no_status_check_witness :
    (getPayout sampleAuthConfig sampleValidCache 0 (.transportError "unused")
      (.transportError "network down") "payout-1").result =
      .error (.transport "network down") :=
  (c1_operations_no_status_check sampleAuthConfig sampleValidCache sampleValidCache 0
    (.transportError "unused") (.str "tok") rfl "network down" 500 "data"
    "payout-1" "link-1" "2024-01-01" "2024-01-31" "merchant-1" "idem-1" "body" none).1.1

/-- C2 (confirmed): when the cached token is a (non-null) string and its
expiry exceeds the current time plus the 60 000 ms buffer, `getAccessToken`
returns the cached token and leaves the cache unchanged, whatever the network
would have answered — i.e. no token-exchange call is performed. -/
theorem c2_cache_hit (cache : TokenCache) (now : Nat) (s : String)
    (htok : cache.token = .str s)
    (hexp : now + config.tokenExpiryBufferMs < cache.expiresAt) :
    ∀ net : FetchOutcome TokenBody,
      getAccessToken cache now net = (.ok (.str s), cache) := by
  intro net
  have hv : isTokenValid cache now = true := by
    simp [isTokenValid, htok, hexp]
  simp [getAccessToken, hv, htok]

/-- Witness for C2 at a concrete valid cache. -/
theorem c2_cache_hit_witness :
    getAccessToken sampleValidCache 0 (.transportError "unused") =
      (.ok (.str "tok"), sampleValidCache) :=
  c2_cache_hit sampleValidCache 0 "tok" rfl (by decide) (.transportError "unused")

/-- C3 (confirmed): with an invalid cache (so an exchange happens), a non-2xx
token-endpoint response makes `getAccessToken` fail with the error thrown in
`generateAccessToken` — the `Error` whose message carries the HTTP status
(the spec's `AuthExchangeError`) — and the cache is returned exactly as it
was: no partial token is stored. -/
theorem c3_non2xx_exchange_fails (cache : TokenCache) (now status : Nat)
    (bp : BodyParse TokenBody)
    (hmiss : isTokenValid cache now = false)
    (hstatus : responseOk status = false) :
    getAccessToken cache now (.httpResponse status bp) =
      (.error (.httpStatus status), cache) := by
  simp [getAccessToken, hmiss, generateAccessToken, hstatus]

/-- Witness for C3: a 401 from the token endpoint with the empty initial
cache. -/
theorem c3_non2xx_exchange_fails_witness :
    getAccessToken initialTokenCache 0 (.httpResponse 401 .malformed) =
      (.error (.httpStatus 401), initialTokenCache) :=
  c3_non2xx_exchange_fails initialTokenCache 0 401 .malformed (by decide) (by decide)

/-- C4 (counterexample): the claim says a 2xx exchange response whose JSON
lacks `access_token` fails with a malformed-response error.  It is false:
`generateAccessToken` performs no field validation, so a 200 response whose
parsed JSON has no `access_token` is returned as a successful result. -/
theorem c4_counterexample :
    responseOk 200 = true ∧
      generateAccessToken (.httpResponse 200
          (.parsed { access_token := none, expires_in := some 3600,
                     token_type := some "Bearer" })) =
        .ok { access_token := none, expires_in := some 3600,
              token_type := some "Bearer" } :=
  ⟨rfl, rfl⟩

/-- C4 (amended): on a 2xx token-exchange response, a body that cannot be
parsed as JSON makes the exchange fail with the JSON-parse error; a body that
parses is returned as-is, even when it lacks an `access_token` field (the
code validates no fields). -/
theorem c4_2xx_parse_only (status : Nat) (hok : responseOk status = true) :
    generateAccessToken (.httpResponse status .malformed) = .error .jsonParse ∧
      ∀ d : TokenBody, generateAccessToken (.httpResponse status (.parsed d)) = .ok d := by
  constructor
  · simp [generateAccessToken, hok]
  · intro d; simp [generateAccessToken, hok]

/-- Witness for the amended C4 theorem at status 200. -/
theorem c4_2xx_parse_only_witness :
    generateAccessToken (.httpResponse 200 .malformed) = .error .jsonParse :=
  (c4_2xx_parse_only 200 (by decide)).1

/-- C5 (confirmed): on a cache miss with a successful exchange carrying
`access_token`, the cache afterwards holds that token and
`expiresAt = now + expires_in * 1000`, with the 1800 s fallback substituted
when `expires_in` is absent or zero (falsy), and the call returns the new
token. -/
theorem c5_refresh_updates_cache (cache : TokenCache) (now status : Nat)
    (tok : String) (e : Option Nat) (tt : Option String)
    (hmiss : isTokenValid cache now = false)
    (hok : responseOk status = true) :
    (getAccessToken cache now (.httpResponse status (.parsed ⟨some tok, e, tt⟩))).1 =
        .ok (.str tok) ∧
      (getAccessToken cache now (.httpResponse status (.parsed ⟨some tok, e, tt⟩))).2.token =
        .str tok ∧
      (∀ n, e = some n → n ≠ 0 →
        (getAccessToken cache now (.httpResponse status (.parsed ⟨some tok, e, tt⟩))).2.expiresAt =
          now + n * 1000) ∧
      ((e = none ∨ e = some 0) →
        (getAccessToken cache now (.httpResponse status (.parsed ⟨some tok, e, tt⟩))).2.expiresAt =
          now + config.tokenExpiryFallbackSeconds * 1000) := by
  refine ⟨?_, ?_, ?_, ?_⟩
  · simp [getAccessToken, hmiss, generateAccessToken, hok, jsOfAccessToken]
  · simp [getAccessToken, hmiss, generateAccessToken, hok, jsOfAccessToken]
  · intro n hn hnz
    subst hn
    simp [getAccessToken, hmiss, generateAccessToken, hok, hnz]
  · intro he
    rcases he with he | he <;> subst he <;>
      simp [getAccessToken, hmiss, generateAccessToken, hok]

/-- Witness for C5: fresh cache, 200 response with `expires_in = 3600`. -/
theorem c5_refresh_updates_cache_witness :
    (getAccessToken initialTokenCache 0
        (.httpResponse 200 (.parsed ⟨some "t", some 3600, some "Bearer"⟩))).2.expiresAt =
      0 + 3600 * 1000 :=
  (c5_refresh_updates_cache initialTokenCache 0 200 "t" (some 3600) (some "Bearer")
    (by decide) (by decide)).2.2.1 3600 rfl (by decide)

/-- C6 (counterexample): the claim says that under arbitrary exchange
responses every reachable cache state has a token that is null or a non-empty
string.  It is false: one call from the initial state answered by a 200
response whose `access_token` is the empty string leaves the cache holding
the empty string (the code stores the field unvalidated). -/
theorem c6_counterexample :
    ¬ ((runGetAccessToken
          [(0, .httpResponse 200 (.parsed ⟨some "", some 3600, some "Bearer"⟩))]).token =
            .null ∨
        ∃ s, (runGetAccessToken
          [(0, .httpResponse 200 (.parsed ⟨some "", some 3600, some "Bearer"⟩))]).token =
            .str s ∧ s ≠ "") := by
  have h : (runGetAccessToken
      [(0, .httpResponse 200 (.parsed ⟨some "", some 3600, some "Bearer"⟩))]).token =
      .str "" := rfl
  rintro (h0 | ⟨s, hs, hne⟩)
  · rw [h] at h0; exact JsNullable.noConfusion h0
  · rw [h] at hs
    injection hs with h2
    exact hne h2.symm

/-- C6 (amended): in every state reachable by `getAccessToken()` calls whose
successful (2xx, JSON-parseable) exchange responses carry a present,
non-empty `access_token` string, the cached token is either null or a
non-empty string; and whenever the token is null the validity check fails, so
the next call performs an exchange. -/
theorem c6_invariant_wellformed :
    (∀ calls : List (Nat × FetchOutcome TokenBody),
        (∀ p ∈ calls, wellFormedExchange p.2 = true) →
        cacheTokenWF (runGetAccessToken calls)) ∧
      (∀ (c : TokenCache) (now : Nat), c.token = .null →
        isTokenValid c now = false) := by
  constructor
  · intro calls h
    exact foldl_preserves_cacheTokenWF calls initialTokenCache (Or.inl rfl) h
  · intro c now hnull
    simp [isTokenValid, hnull]

/-- Witness for the amended C6 theorem: one well-formed call, and the empty
initial cache failing the validity check. -/
theorem c6_invariant_wellformed_witness :
    cacheTokenWF (runGetAccessToken
        [(0, .httpResponse 200 (.parsed ⟨some "t", some 3600, some "Bearer"⟩))]) ∧
      isTokenValid initialTokenCache 5 = false :=
  ⟨c6_invariant_wellformed.1
      [(0, .httpResponse 200 (.parsed ⟨some "t", some 3600, some "Bearer"⟩))]
      (by decide),
    c6_invariant_wellformed.2 initialTokenCache 5 rfl⟩

/-- C7 (confirmed): for each signed outbound request — token exchange,
`createPayout`, `createPaymentLink` — the transmitted header list is exactly
the header set passed to the signer followed by one additional
`Tl-Signature` header carrying the signature of those same headers and that
same body, the transmitted body is exactly the signed body, and the
transmitted headers contain exactly one `Tl-Signature` entry. -/
theorem c7_signed_equals_transmitted (ac : AuthConfig)
    (accessToken idempotencyKey payoutBody linkBody : String) :
    ((tokenExchangeRequest ac).headers =
        (tokenExchangeSignArgs ac).headers ++
          [("Tl-Signature", tlSign (tokenExchangeSignArgs ac))] ∧
      (tokenExchangeRequest ac).body = some (tokenExchangeSignArgs ac).body ∧
      ((tokenExchangeRequest ac).headers.filter
        (fun p => p.1 == "Tl-Signature")).length = 1) ∧
    ((createPayoutRequest ac accessToken idempotencyKey payoutBody).headers =
        (createPayoutSignArgs ac accessToken idempotencyKey payoutBody).headers ++
          [("Tl-Signature",
            tlSign (createPayoutSignArgs ac accessToken idempotencyKey payoutBody))] ∧
      (createPayoutRequest ac accessToken idempotencyKey payoutBody).body =
        some (createPayoutSignArgs ac accessToken idempotencyKey payoutBody).body ∧
      ((createPayoutRequest ac accessToken idempotencyKey payoutBody).headers.filter
        (fun p => p.1 == "Tl-Signature")).length = 1) ∧
    ((createPaymentLinkRequest ac accessToken idempotencyKey linkBody).headers =
        (createPaymentLinkSignArgs ac accessToken idempotencyKey linkBody).headers ++
          [("Tl-Signature",
            tlSign (createPaymentLinkSignArgs ac accessToken idempotencyKey linkBody))] ∧
      (createPaymentLinkRequest ac accessToken idempotencyKey linkBody).body =
        some (createPaymentLinkSignArgs ac accessToken idempotencyKey linkBody).body ∧
      ((createPaymentLinkRequest ac accessToken idempotencyKey linkBody).headers.filter
        (fun p => p.1 == "Tl-Signature")).length = 1) :=
  ⟨⟨rfl, rfl, rfl⟩, ⟨rfl, rfl, rfl⟩, ⟨rfl, rfl, rfl⟩⟩

/-- C8 (confirmed against the spec-modelled signer): signing is a
deterministic pure function of (kid, key, method, path, headers, body) —
equal inputs give equal signatures — and under the same key, changing the
method, the path, the header set or the body changes the signature value. -/
theorem c8_sign_deterministic_sensitive :
    (∀ a b : SignArgs, a = b → tlSign a = tlSign b) ∧
      (∀ a b : SignArgs, a.kid = b.kid → a.privateKeyPem = b.privateKeyPem →
        a.method ≠ b.method ∨ a.path ≠ b.path ∨ a.headers ≠ b.headers ∨ a.body ≠ b.body →
        tlSign a ≠ tlSign b) := by
  constructor
  · intro a b h; rw [h]
  · intro a b _ _ hdiff heq
    have h := tlSign_injective heq
    subst h
    rcases hdiff with h | h | h | h <;> exact h rfl

/-- Witness for C8: same key, same headers and body, different path. -/
theorem c8_sign_deterministic_sensitive_witness :
    tlSign { kid := "kid-1", privateKeyPem := "pem-1", method := "POST",
             path := "/connect/token", headers := [], body := "x" } ≠
      tlSign { kid := "kid-1", privateKeyPem := "pem-1", method := "POST",
               path := "/v3/payouts", headers := [], body := "x" } :=
  c8_sign_deterministic_sensitive.2 _ _ rfl rfl (Or.inr (Or.inl (by decide)))

/-- C9 (confirmed): with `from` and `to` unspecified, the list-transactions
tool handler computes `to` as the current time rendered by `toISOString` and
`from` as the instant 30 days earlier, and `listTransactions` transmits a URL
whose query string serializes exactly the parameter list beginning with those
two values under the names `from` and `to`. -/
theorem c9_default_window (ac : AuthConfig) (now : Nat)
    (accessToken merchantAccountId : String) (cursor : Option String) :
    (listTransactionsToolDefaults now).2 = jsToISOString now ∧
      (listTransactionsToolDefaults now).1 = jsToISOString (now - 30 * 86400000) ∧
      (listTransactionsParams (listTransactionsToolDefaults now).1
          (listTransactionsToolDefaults now).2 cursor).take 2 =
        [("from", (listTransactionsToolDefaults now).1),
         ("to", (listTransactionsToolDefaults now).2)] ∧
      (listTransactionsRequest ac accessToken (listTransactionsToolDefaults now).1
          (listTransactionsToolDefaults now).2 merchantAccountId cursor).url =
        ac.BASE_URI ++ "/v3/merchant-accounts/" ++ merchantAccountId ++ "/transactions?" ++
          urlEncodeParams (listTransactionsParams (listTransactionsToolDefaults now).1
            (listTransactionsToolDefaults now).2 cursor) := by
  refine ⟨rfl, rfl, ?_, rfl⟩
  cases cursor with
  | none => rfl
  | some c =>
    by_cases hc : c = "" <;> simp [listTransactionsParams, hc]

/-- C10 (confirmed): an absent or empty `cursor` yields a query parameter
list of exactly `from` and `to` and no `cursor` entry; a non-empty cursor
appends exactly one `cursor` parameter after them. -/
theorem c10_cursor_only_when_nonempty (fromDate toDate : String) :
    listTransactionsParams fromDate toDate none =
        [("from", fromDate), ("to", toDate)] ∧
      listTransactionsParams fromDate toDate (some "") =
        [("from", fromDate), ("to", toDate)] ∧
      ∀ c : String, c ≠ "" →
        listTransactionsParams fromDate toDate (some c) =
          [("from", fromDate), ("to", toDate), ("cursor", c)] := by
  refine ⟨rfl, rfl, fun c hc => ?_⟩
  simp [listTransactionsParams, hc]

/-- Witness for C10 with a concrete non-empty cursor. -/
theorem c10_cursor_only_when_nonempty_witness :
    listTransactionsParams "2024-01-01" "2024-01-31" (some "abc") =
      [("from", "2024-01-01"), ("to", "2024-01-31"), ("cursor", "abc")] :=
  (c10_cursor_only_when_nonempty "2024-01-01" "2024-01-31").2.2 "abc" (by decide)

end TruelayerMcp
